import Mathlib

/-!
# Verification of the CDS services tutorial server (src/index.js)

A shallow embedding of the Express application in `src/index.js`.

Modelling conventions:
* JSON objects read by the handlers are embedded as Lean structures whose
  fields are exactly the fields the code touches; a field the code may find
  absent (JS `undefined`) is an `Option`.
* `response.send(JSON.stringify(x))` is modelled as emitting the structured
  value `x`; `response.status(401).end()` is a rejection with no body;
  `response.status(200)` alone only records a status and sends nothing
  (in Express the request then hangs — no response is ever written).
* A JS `TypeError` thrown by a property access on `undefined` is the
  outcome `threw`.
* The two token-verification libraries (`jsonwebtoken` + `jwk-to-pem`) are
  third-party code, so `jwt.verify` is modelled from the spec's description
  of the verification contract; everything else is translated from
  `src/index.js` directly.
-/

namespace CdsServices

/-! ## Wire data model -/

/-- A FHIR Coding as read/produced by the order-select service
    (`medicationCodeableConcept.coding[0]`). -/
structure Coding where
  display : Option String
  system : Option String
  code : Option String
deriving Repr, DecidableEq

/-- A FHIR CodeableConcept (`medicationCodeableConcept`). -/
structure CodeableConcept where
  text : Option String
  coding : List Coding
deriving Repr, DecidableEq

/-- The draft MedicationRequest/MedicationOrder resource, restricted to the
    fields `src/index.js` reads (`resourceType`, `id`,
    `medicationCodeableConcept`); the suggestion's resource is this record
    with the concept replaced, as in lines 339-349. -/
structure MedOrder where
  resourceType : String
  id : String
  medicationCodeableConcept : Option CodeableConcept
deriving Repr, DecidableEq

/-- `source` field of a card. -/
structure CardSource where
  label : String
  url : String
deriving Repr, DecidableEq

/-- An entry of a card's `links` array. -/
structure CardLink where
  label : String
  url : String
  type : String
deriving Repr, DecidableEq

/-- An entry of a suggestion's `actions` array. -/
structure SuggestionAction where
  type : String
  description : String
  resource : MedOrder
deriving Repr, DecidableEq

/-- An entry of a card's `suggestions` array. -/
structure Suggestion where
  label : String
  actions : List SuggestionAction
deriving Repr, DecidableEq

/-- An advisory card; `detail`, `suggestions` and `links` are absent from
    some of the cards the code builds, hence `Option`. -/
structure Card where
  summary : String
  detail : Option String
  indicator : String
  source : CardSource
  suggestions : Option (List Suggestion)
  links : Option (List CardLink)
deriving Repr, DecidableEq

/-- A response body sent by the POST services: `{ cards: [...] }`. -/
structure CardsResponse where
  cards : List Card
deriving Repr, DecidableEq

/-- Outcome of a synchronous Express handler:
    * `sent body` — `response.send(JSON.stringify(body))` was called;
    * `noSend status` — only `response.status(status)` was called, so no
      response is ever written and the request hangs;
    * `threw` — a `TypeError` escaped the handler. -/
inductive Outcome where
  | sent (body : CardsResponse)
  | noSend (statusSet : Nat)
  | threw
deriving Repr, DecidableEq

/-! ## Request Gate (authorization middleware, lines 38-108) -/

/-- The contents of the WWW-Authenticate challenge header the middleware
    sets, `Bearer realm="<realm>", error="<error>",
    error_description="<errorDescription>"`. -/
structure Challenge where
  realm : String
  error : String
  errorDescription : String
deriving Repr, DecidableEq

/-- The exact header string the middleware formats (lines 49 and 102). -/
def renderChallenge (c : Challenge) : String :=
  "Bearer realm=\"" ++ c.realm ++ "\", error=\"" ++ c.error ++
    "\", error_description=\"" ++ c.errorDescription ++ "\""

/-- Gate decision: pass to the next middleware, or reject with
    `response.status(status).end()` (no body) after setting the challenge. -/
inductive GateResult where
  | pass
  | reject (status : Nat) (challenge : Challenge)
deriving Repr, DecidableEq

/-- The parts of an incoming HTTP request the middleware reads. -/
structure GateRequest where
  method : String
  host : String
  protocol : String
  originalUrl : String
  authorization : Option String
deriving Repr, DecidableEq

/-- JS `s.startsWith(pat)` (line 48), expressed on the underlying character
    lists so that it evaluates on concrete strings. -/
def strStartsWith (s pat : String) : Bool :=
  pat.data.isPrefixOf s.data

/-- JS `s.replace(pat, repl)` with string arguments replaces only the FIRST
    occurrence of `pat` (line 53 strips the Bearer marker this way). -/
def jsReplaceFirst (s pat repl : String) : String :=
  match s.splitOn pat with
  | [] => s
  | [x] => x
  | a :: rest => a ++ repl ++ String.intercalate pat rest

/-- The claims and signature status carried by a bearer token, as seen by
    the verifier: whether its signature verifies under the fixed public key,
    its algorithm, issuer, audience, and expiry/issued-at instants. -/
structure TokenClaims where
  sigValidUnderKey : Bool
  alg : String
  iss : String
  aud : String
  exp : Int
  iat : Int
deriving Repr, DecidableEq

/-- The options object built on lines 90-95. -/
structure VerifyOptions where
  algorithms : List String
  audience : String
  issuer : List String
  clockTolerance : Int
deriving Repr, DecidableEq

/-- Modelled from the spec: the third-party `jwt.verify(token, pem, options)`
    call (the `jsonwebtoken` library is not part of this repository).  Per
    the spec, verification succeeds exactly when the token's signature is
    valid under the fixed public key with an algorithm in the allow-list,
    the issuer is in the allow-list, the audience matches the computed value
    exactly, and expiry/issued-at fall within the clock-skew tolerance of
    the current time `now`. -/
def jwtVerify (t : TokenClaims) (opts : VerifyOptions) (now : Int) : Bool :=
  t.sigValidUnderKey && opts.algorithms.contains t.alg &&
    opts.issuer.contains t.iss && t.aud == opts.audience &&
    decide (now ≤ t.exp + opts.clockTolerance) &&
    decide (t.iat ≤ now + opts.clockTolerance)

/-- The authorization middleware (lines 38-108).  `decode` abstracts the
    parsing of a token string into its claims/signature status; `now` is the
    verification instant. -/
def requestGate (req : GateRequest) (decode : String → TokenClaims)
    (now : Int) : GateResult :=
  if req.method = "OPTIONS" then .pass
  else
    match req.authorization with
    | none =>
        .reject 401
          { realm := req.host, error := "invalid_token",
            errorDescription := "No Bearer token provided." }
    | some header =>
        if strStartsWith header "Bearer" then
          let token := jsReplaceFirst header "Bearer " ""
          let aud := req.protocol ++ "://" ++ req.host ++ req.originalUrl
          let options : VerifyOptions :=
            { algorithms := ["ES384", "RS384"],
              audience := aud,
              issuer := ["https://sandbox.cds-hooks.org"],
              clockTolerance := 5 * 60 }
          if jwtVerify (decode token) options now then .pass
          else
            .reject 401
              { realm := req.host, error := "invalid_token",
                errorDescription := "The token is invalid." }
        else
          .reject 401
            { realm := req.host, error := "invalid_token",
              errorDescription := "No Bearer token provided." }

/-! ## Patient View Example Service (lines 159-191) -/

/-- One entry of a FHIR HumanName; the handler reads `given[0]` and
    `family[0]`, so both components are arrays here. -/
structure HumanName where
  given : List String
  family : List String
deriving Repr, DecidableEq

/-- The prefetched Patient resource, restricted to the fields read. -/
structure Patient where
  name : List HumanName
  birthDate : Option String
deriving Repr, DecidableEq

/-- The `prefetch` object of a patient-view-example request body. -/
structure PrefetchBundle where
  requestedPatient : Patient
deriving Repr, DecidableEq

/-- The request body of POST /cds-services/patient-view-example. -/
structure PatientViewBody where
  prefetch : PrefetchBundle
deriving Repr, DecidableEq

/-- JS string coercion used by `+` concatenation: `undefined` prints as
    "undefined" (e.g. `given[0]` on an empty array). -/
def jsStr (o : Option String) : String :=
  match o with
  | some s => s
  | none => "undefined"

/-- The patient-view-example handler.  `patientResource.name[0]` on an
    absent first name is a TypeError; otherwise exactly one card is sent. -/
def patientViewExampleOutcome (body : PatientViewBody) : Outcome :=
  let patientResource := body.prefetch.requestedPatient
  match patientResource.name.head? with
  | none => .threw
  | some n =>
      .sent
        { cards :=
            [ { summary :=
                  "Now seeing: " ++ jsStr n.given.head? ++ " " ++
                    jsStr n.family.head?,
                detail :=
                  some ("Patient birthdate: " ++ jsStr patientResource.birthDate),
                indicator := "info",
                source :=
                  { label := "CDS Service Tutorial",
                    url := "https://github.com/cerner/cds-services-tutorial/wiki/Patient-View-Service" },
                suggestions := none,
                links :=
                  some
                    [ { label := "Learn more about CDS Hooks",
                        url := "http://cds-hooks.org",
                        type := "absolute" },
                      { label := "Launch SMART App!",
                        url := "https://engineering.cerner.com/smart-on-fhir-tutorial/example-smart-app/launch.html",
                        type := "smart" } ] } ] }

/-! ## Clinical Data Fetcher (lines 255-308) -/

/-- The display text of a Condition's `code` element (`condition.code.text`). -/
structure ConditionCode where
  text : String
deriving Repr, DecidableEq

/-- A resource inside a fetched bundle entry. -/
structure FetchedResource where
  resourceType : String
  code : ConditionCode
deriving Repr, DecidableEq

/-- An entry of a fetched bundle. -/
structure FetchedEntry where
  resource : FetchedResource
deriving Repr, DecidableEq

/-- The body the remote FHIR server returns.  An absent `entry` field and an
    empty `entry` array are both falsy on line 204, so both are `[]` here. -/
structure FetchBody where
  resourceType : String
  entry : List FetchedEntry
deriving Repr, DecidableEq

/-- How the single outbound GET settles: a response body, or a network
    error/timeout. -/
inductive FetchNetOutcome where
  | success (body : FetchBody)
  | failure
deriving Repr, DecidableEq

/-- The `fhirAuthorization` object (`{access_token: ...}`). -/
structure FhirAuthorization where
  access_token : String
deriving Repr, DecidableEq

/-- `retrieveHypertensionConditionsAxios` (lines 255-278).  The request
    plumbing (base URL, patient/code query, bearer header, 2000 ms timeout)
    is abstracted into `outcome`.  On success the body is returned only when
    its `resourceType` is 'Bundle' (line 271); otherwise, and on any error,
    the promise resolves to `undefined` after logging (lines 274-276). -/
def retrieveHypertensionConditionsAxios (fhirServer patientId : String)
    (fhirAuthorization : Option FhirAuthorization)
    (outcome : FetchNetOutcome) : Option FetchBody :=
  match outcome with
  | .success body => if body.resourceType = "Bundle" then some body else none
  | .failure => none

/-- `retrieveHypertensionConditionsFhirJs` (lines 280-308).  On success it
    resolves to `res.data` unconditionally (line 295, no Bundle check); the
    catch handler only logs, so on error the promise resolves to
    `undefined`. -/
def retrieveHypertensionConditionsFhirJs (fhirServer patientId : String)
    (fhirAuthorization : Option FhirAuthorization)
    (outcome : FetchNetOutcome) : Option FetchBody :=
  match outcome with
  | .success body => some body
  | .failure => none

/-! ## Patient View Hypertension Service (lines 196-224)

The handler fires `retrieveHypertensionConditionsFhirJs(...)` and registers
a `.then` continuation, then synchronously runs `response.status(200)` —
which only records a status and sends nothing.  The continuation sends a
response only when the guard on line 204 holds; if the promise resolved to
`undefined` (fetch failure) the continuation itself throws a TypeError on
`conditionsBundle.entry`. -/

/-- Everything that happens to the response of one hypertension request:
    the bodies sent by the promise continuation (in order), whether the
    continuation threw, and the status recorded synchronously. -/
structure HypertensionOutcome where
  sends : List CardsResponse
  continuationThrew : Bool
  statusSet : Option Nat
deriving Repr, DecidableEq

/-- The warning card built on lines 207-218 for `condition`. -/
def hypertensionCard (condition : FetchedResource) : Card :=
  { summary := "Existing condition: " ++ condition.code.text,
    detail := none,
    indicator := "warning",
    source :=
      { label := "CDS Service Tutorial",
        url := "https://github.com/cerner/cds-services-tutorial/wiki/Exercises" },
    suggestions := none,
    links := none }

/-- The hypertension handler, as a function of the value the fetch promise
    resolved with (`none` = `undefined`, i.e. fetch failure). -/
def patientViewHypertensionOutcome (conditionsBundle : Option FetchBody) :
    HypertensionOutcome :=
  match conditionsBundle with
  | none => { sends := [], continuationThrew := true, statusSet := some 200 }
  | some bundle =>
      match bundle.entry.head? with
      | some e =>
          if e.resource.resourceType = "Condition" then
            { sends := [{ cards := [hypertensionCard e.resource] }],
              continuationThrew := false, statusSet := some 200 }
          else
            { sends := [], continuationThrew := false, statusSet := some 200 }
      | none => { sends := [], continuationThrew := false, statusSet := some 200 }

/-- The whole endpoint: the handler applied to what the fhir.js fetcher
    resolves with for the given network outcome. -/
def hypertensionEndpoint (fhirServer patientId : String)
    (fhirAuthorization : Option FhirAuthorization)
    (outcome : FetchNetOutcome) : HypertensionOutcome :=
  patientViewHypertensionOutcome
    (retrieveHypertensionConditionsFhirJs fhirServer patientId
      fhirAuthorization outcome)

/-! ## Order Select Example Service (lines 235-248, 315-376) -/

/-- An entry of `context.draftOrders.entry`. -/
structure DraftOrderEntry where
  resource : MedOrder
deriving Repr, DecidableEq

/-- `context.draftOrders`. -/
structure DraftOrdersBundle where
  entry : List DraftOrderEntry
deriving Repr, DecidableEq

/-- The `context` of an order-select request: the draft orders bundle and
    the user-selected resource references. -/
structure OrderSelectContext where
  draftOrders : DraftOrdersBundle
  selections : List String
deriving Repr, DecidableEq

/-- The CodeableConcept the suggestion substitutes in (lines 340-349). -/
def aspirinConcept : CodeableConcept :=
  { text := some "Aspirin 81 MG Oral Tablet",
    coding :=
      [ { display := some "Aspirin 81 MG Oral Tablet",
          system := some "http://www.nlm.nih.gov/research/umls/rxnorm",
          code := some "243670" } ] }

/-- `createMedicationResponseCard` (lines 315-376).  Reads
    `context.medicationCodeableConcept.coding[0].code`, so an absent concept
    or empty coding array is a TypeError (`none` here).  Returns the info
    card when the ordered code is '243670', else the warning card whose
    suggestion's action resource is the draft order with its concept
    replaced by `aspirinConcept`. -/
def createMedicationResponseCard (context : MedOrder) : Option CardsResponse :=
  match context.medicationCodeableConcept with
  | none => none
  | some concept =>
      match concept.coding.head? with
      | none => none
      | some coding0 =>
          if coding0.code = some "243670" then
            some
              { cards :=
                  [ { summary := "Currently prescribing a low-dose Aspirin",
                      detail := none,
                      indicator := "info",
                      source :=
                        { label := "CDS Service Tutorial",
                          url := "https://github.com/cerner/cds-services-tutorial/wiki/Order-Select-Service" },
                      suggestions := none,
                      links := none } ] }
          else
            some
              { cards :=
                  [ { summary := "Reduce cardiovascular risks, prescribe daily 81 MG Aspirin",
                      detail := none,
                      indicator := "warning",
                      source :=
                        { label := "CDS Service Tutorial",
                          url := "https://github.com/cerner/cds-services-tutorial/wiki/Order-Select-Service" },
                      suggestions :=
                        some
                          [ { label := "Switch to low-dose Aspirin",
                              actions :=
                                [ { type := "create",
                                    description := "Modifying existing medication order to be Aspirin",
                                    resource :=
                                      { context with
                                        medicationCodeableConcept := some aspirinConcept } } ] } ],
                      links := none } ] }

/-- The order-select-example handler (lines 235-248).
    `context.draftOrders.entry[0].resource` on an empty entry array is a
    TypeError.  When the guard on lines 242-243 holds, the response card is
    sent; otherwise only `response.status(200)` runs and nothing is ever
    sent. -/
def orderSelectOutcome (ctx : OrderSelectContext) : Outcome :=
  match ctx.draftOrders.entry.head? with
  | none => .threw
  | some entry0 =>
      let draftOrder := entry0.resource
      if (["MedicationRequest", "MedicationOrder"].contains draftOrder.resourceType
            && ctx.selections.contains (draftOrder.resourceType ++ "/" ++ draftOrder.id)
            && draftOrder.medicationCodeableConcept.isSome) then
        match createMedicationResponseCard draftOrder with
        | some responseCard => .sent responseCard
        | none => .threw
      else
        .noSend 200

/-- The cards an order-select request actually delivers to the caller:
    those of the sent body, none when nothing was sent. -/
def cardsEmitted (o : Outcome) : List Card :=
  match o with
  | .sent body => body.cards
  | .noSend _ => []
  | .threw => []

/-! ## Concrete inputs used by witnesses and counterexamples -/

/-- A POST request carrying a well-formed Bearer header. -/
def bearerRequest : GateRequest :=
  { method := "POST", host := "example.com", protocol := "https",
    originalUrl := "/cds-services/patient-view-example",
    authorization := some "Bearer tok" }

/-- A POST request with no Authorization header at all. -/
def noAuthRequest : GateRequest :=
  { method := "POST", host := "example.com", protocol := "https",
    originalUrl := "/cds-services", authorization := none }

/-- A decoder mapping every token string to claims that verify against
    `bearerRequest` at time 900. -/
def goodDecode : String → TokenClaims := fun _ =>
  { sigValidUnderKey := true, alg := "ES384",
    iss := "https://sandbox.cds-hooks.org",
    aud := "https://example.com/cds-services/patient-view-example",
    exp := 1000, iat := 0 }

/-- A decoder mapping every token string to claims that verify nowhere. -/
def badDecode : String → TokenClaims := fun _ =>
  { sigValidUnderKey := false, alg := "", iss := "", aud := "",
    exp := 0, iat := 0 }

/-! ## C1: the Request Gate's pass condition on Bearer requests -/

/-- `jwt.verify` succeeds exactly when all the individual claim checks
    hold. -/
theorem jwtVerify_eq_true_iff (t : TokenClaims) (opts : VerifyOptions)
    (now : Int) :
    jwtVerify t opts now = true ↔
      (t.sigValidUnderKey = true ∧ t.alg ∈ opts.algorithms ∧
        t.iss ∈ opts.issuer ∧ t.aud = opts.audience ∧
        now ≤ t.exp + opts.clockTolerance ∧
        t.iat ≤ now + opts.clockTolerance) := by
  simp [jwtVerify, List.contains, List.elem_iff, and_assoc]

/-- C1: for every non-OPTIONS request carrying a Bearer token, the gate
    passes exactly when the decoded token is validly signed under the fixed
    key with algorithm in the two-element allow-list ES384/RS384, issuer in
    the fixed allow-list, audience equal to the exact request URL
    (protocol://host + original URL), and expiry/issued-at within the
    300-second clock tolerance of the verification time; any verification
    failure is a 401 rejection whose challenge carries error code
    invalid_token. -/
theorem requestGate_bearer_pass_iff (req : GateRequest)
    (decode : String → TokenClaims) (now : Int) (header : String)
    (hm : req.method ≠ "OPTIONS") (ha : req.authorization = some header)
    (hb : strStartsWith header "Bearer" = true) :
    (requestGate req decode now = .pass ↔
      ((decode (jsReplaceFirst header "Bearer " "")).sigValidUnderKey = true ∧
        (decode (jsReplaceFirst header "Bearer " "")).alg ∈
          (["ES384", "RS384"] : List String) ∧
        (decode (jsReplaceFirst header "Bearer " "")).iss ∈
          (["https://sandbox.cds-hooks.org"] : List String) ∧
        (decode (jsReplaceFirst header "Bearer " "")).aud =
          req.protocol ++ "://" ++ req.host ++ req.originalUrl ∧
        now ≤ (decode (jsReplaceFirst header "Bearer " "")).exp + 300 ∧
        (decode (jsReplaceFirst header "Bearer " "")).iat ≤ now + 300)) ∧
    (requestGate req decode now ≠ .pass →
      requestGate req decode now =
        .reject 401
          { realm := req.host, error := "invalid_token",
            errorDescription := "The token is invalid." }) := by
  set t := decode (jsReplaceFirst header "Bearer " "") with ht
  set opts : VerifyOptions :=
    { algorithms := ["ES384", "RS384"],
      audience := req.protocol ++ "://" ++ req.host ++ req.originalUrl,
      issuer := ["https://sandbox.cds-hooks.org"],
      clockTolerance := 5 * 60 } with hopts
  have hgate : requestGate req decode now =
      if jwtVerify t opts now then .pass
      else
        .reject 401
          { realm := req.host, error := "invalid_token",
            errorDescription := "The token is invalid." } := by
    simp [requestGate, hm, ha, hb, ht, hopts]
  constructor
  · have hpass : requestGate req decode now = .pass ↔
        jwtVerify t opts now = true := by
      rw [hgate]
      cases hv : jwtVerify t opts now <;> simp [hv]
    rw [hpass, jwtVerify_eq_true_iff]
    exact Iff.rfl
  · intro hne
    rw [hgate] at hne ⊢
    cases hv : jwtVerify t opts now
    · simp [hv]
    · simp [hv] at hne

/-- C1 witness: at a concrete Bearer request whose decoded claims satisfy
    every verification condition, the gate passes. -/
theorem requestGate_bearer_pass_iff_witness :
    requestGate bearerRequest goodDecode 900 = GateResult.pass :=
  (requestGate_bearer_pass_iff bearerRequest goodDecode 900 "Bearer tok"
      (by decide) rfl (by decide)).1.mpr
    ⟨rfl, by decide, by decide, rfl, by decide, by decide⟩

/-! ## C2: missing/malformed Authorization header -/

/-- The error code carried by a gate decision's challenge, if any. -/
def gateChallengeError : GateResult → Option String
  | .pass => none
  | .reject _ c => some c.error

/-- The status code of a gate rejection, if any. -/
def gateRejectStatus : GateResult → Option Nat
  | .pass => none
  | .reject s _ => some s

/-- C2 counterexample: on a POST request with no Authorization header the
    middleware rejects with 401 whose challenge carries error code
    `invalid_token` (description 'No Bearer token provided.'), not the
    error code `missing_token` the claim names. -/
theorem noAuth_rejects_invalid_token_not_missing_token :
    gateRejectStatus (requestGate noAuthRequest badDecode 0) = some 401 ∧
    gateChallengeError (requestGate noAuthRequest badDecode 0) =
      some "invalid_token" ∧
    (gateChallengeError (requestGate noAuthRequest badDecode 0) ==
      some "missing_token") = false := by
  decide

/-- C2 amended: for every non-OPTIONS request whose Authorization header is
    absent or does not start with 'Bearer', the middleware rejects with 401,
    a challenge naming the realm (the request host) and error code
    `invalid_token` with description 'No Bearer token provided.', and no
    response body (`response.status(401).end()`). -/
theorem requestGate_no_bearer_401 (req : GateRequest)
    (decode : String → TokenClaims) (now : Int)
    (hm : req.method ≠ "OPTIONS")
    (h : req.authorization = none ∨
      ∃ header, req.authorization = some header ∧
        strStartsWith header "Bearer" = false) :
    requestGate req decode now =
      .reject 401
        { realm := req.host, error := "invalid_token",
          errorDescription := "No Bearer token provided." } := by
  rcases h with h | ⟨header, ha, hb⟩
  · simp [requestGate, hm, h]
  · simp [requestGate, hm, ha, hb]

/-- C2 amended witness: the concrete request with no Authorization header
    is rejected with the invalid_token challenge. -/
theorem requestGate_no_bearer_401_witness :
    requestGate noAuthRequest badDecode 0 =
      GateResult.reject 401
        { realm := "example.com", error := "invalid_token",
          errorDescription := "No Bearer token provided." } :=
  requestGate_no_bearer_401 noAuthRequest badDecode 0 (by decide)
    (Or.inl rfl)

/-! ## C3: the Order Substitution decision rule -/

/-- A draft MedicationRequest coded "11111" (not the target). -/
def draftOrder11111 : MedOrder :=
  { resourceType := "MedicationRequest", id := "order-123",
    medicationCodeableConcept :=
      some
        { text := some "Some other medication",
          coding :=
            [ { display := some "Some other medication",
                system := some "http://www.nlm.nih.gov/research/umls/rxnorm",
                code := some "11111" } ] } }

/-- A draft MedicationRequest already coded "243670" (the target). -/
def draftOrderAspirin : MedOrder :=
  { resourceType := "MedicationRequest", id := "order-456",
    medicationCodeableConcept := some aspirinConcept }

/-- An order-select context whose single draft order is referenced in the
    selection set. -/
def selectedCtx (o : MedOrder) : OrderSelectContext :=
  { draftOrders := { entry := [{ resource := o }] },
    selections := [o.resourceType ++ "/" ++ o.id] }

/-- An order-select context whose single draft order is NOT referenced in
    the selection set. -/
def unselectedCtx : OrderSelectContext :=
  { draftOrders := { entry := [{ resource := draftOrder11111 }] },
    selections := ["MedicationRequest/some-other-order"] }

/-- C3: for every order-select request whose first draft order has resource
    type MedicationRequest or MedicationOrder and carries a coded
    medication: when its reference is in the selection set, the handler
    sends exactly one informational card with no suggestions if the coded
    medication is the target "243670", and otherwise exactly one warning
    card with a single suggestion whose action replaces the order's
    medication coding with the target Aspirin coding; when its reference is
    absent from the selection set, zero cards are emitted. -/
theorem orderSelect_substitution (ctx : OrderSelectContext)
    (entry0 : DraftOrderEntry) (concept : CodeableConcept) (coding0 : Coding)
    (h0 : ctx.draftOrders.entry.head? = some entry0)
    (ht : entry0.resource.resourceType = "MedicationRequest" ∨
      entry0.resource.resourceType = "MedicationOrder")
    (hc : entry0.resource.medicationCodeableConcept = some concept)
    (hcod : concept.coding.head? = some coding0) :
    (ctx.selections.contains
        (entry0.resource.resourceType ++ "/" ++ entry0.resource.id) = true →
      ((coding0.code = some "243670" →
        orderSelectOutcome ctx =
          .sent
            { cards :=
                [ { summary := "Currently prescribing a low-dose Aspirin",
                    detail := none,
                    indicator := "info",
                    source :=
                      { label := "CDS Service Tutorial",
                        url := "https://github.com/cerner/cds-services-tutorial/wiki/Order-Select-Service" },
                    suggestions := none,
                    links := none } ] }) ∧
      (coding0.code ≠ some "243670" →
        orderSelectOutcome ctx =
          .sent
            { cards :=
                [ { summary := "Reduce cardiovascular risks, prescribe daily 81 MG Aspirin",
                    detail := none,
                    indicator := "warning",
                    source :=
                      { label := "CDS Service Tutorial",
                        url := "https://github.com/cerner/cds-services-tutorial/wiki/Order-Select-Service" },
                    suggestions :=
                      some
                        [ { label := "Switch to low-dose Aspirin",
                            actions :=
                              [ { type := "create",
                                  description := "Modifying existing medication order to be Aspirin",
                                  resource :=
                                    { entry0.resource with
                                      medicationCodeableConcept :=
                                        some aspirinConcept } } ] } ],
                    links := none } ] }))) ∧
    (ctx.selections.contains
        (entry0.resource.resourceType ++ "/" ++ entry0.resource.id) = false →
      cardsEmitted (orderSelectOutcome ctx) = []) := by
  have hguard : ∀ b : Bool,
      ctx.selections.contains
        (entry0.resource.resourceType ++ "/" ++ entry0.resource.id) = b →
      (["MedicationRequest", "MedicationOrder"].contains
          entry0.resource.resourceType
        && ctx.selections.contains
          (entry0.resource.resourceType ++ "/" ++ entry0.resource.id)
        && entry0.resource.medicationCodeableConcept.isSome) = b := by
    intro b hs
    rcases ht with ht | ht <;>
      simp [ht, hs, hc] <;> cases b <;> simp_all
  constructor
  · intro hsel
    constructor
    · intro hcode
      simp only [orderSelectOutcome, h0, hguard true hsel, if_true]
      simp [createMedicationResponseCard, hc, hcod, hcode]
    · intro hcode
      simp only [orderSelectOutcome, h0, hguard true hsel, if_true]
      simp [createMedicationResponseCard, hc, hcod, hcode]
  · intro hsel
    simp only [orderSelectOutcome, h0, hguard false hsel]
    simp [cardsEmitted]

/-- C3 witness: the concrete selected draft order coded "11111" yields the
    warning card whose single suggestion substitutes the Aspirin coding. -/
theorem orderSelect_substitution_witness :
    orderSelectOutcome (selectedCtx draftOrder11111) =
      .sent
        { cards :=
            [ { summary := "Reduce cardiovascular risks, prescribe daily 81 MG Aspirin",
                detail := none,
                indicator := "warning",
                source :=
                  { label := "CDS Service Tutorial",
                    url := "https://github.com/cerner/cds-services-tutorial/wiki/Order-Select-Service" },
                suggestions :=
                  some
                    [ { label := "Switch to low-dose Aspirin",
                        actions :=
                          [ { type := "create",
                              description := "Modifying existing medication order to be Aspirin",
                              resource :=
                                { draftOrder11111 with
                                  medicationCodeableConcept :=
                                    some aspirinConcept } } ] } ],
                links := none } ] } :=
  ((orderSelect_substitution (selectedCtx draftOrder11111)
      { resource := draftOrder11111 }
      (draftOrder11111.medicationCodeableConcept.get (by decide))
      { display := some "Some other medication",
        system := some "http://www.nlm.nih.gov/research/umls/rxnorm",
        code := some "11111" }
      rfl (Or.inl rfl) rfl rfl).1 (by decide)).2 (by decide)

/-! ## C4, C5, C10: the Hypertension Flag handler -/

/-- A fetched Bundle whose FIRST entry is not a Condition but whose second
    entry is. -/
def mixedBundle : FetchBody :=
  { resourceType := "Bundle",
    entry :=
      [ { resource := { resourceType := "Observation",
                        code := { text := "Blood pressure" } } },
        { resource := { resourceType := "Condition",
                        code := { text := "Hypertension" } } } ] }

/-- A fetched Bundle whose single entry is a Condition. -/
def conditionBundle : FetchBody :=
  { resourceType := "Bundle",
    entry :=
      [ { resource := { resourceType := "Condition",
                        code := { text := "Hypertension" } } } ] }

/-- A fetched Bundle with no entries. -/
def emptyBundle : FetchBody :=
  { resourceType := "Bundle", entry := [] }

/-- C4 counterexample: a fetched bundle containing an entry whose resource
    type is Condition (at index 1) for which the handler nevertheless sends
    no card, because its first entry is not a Condition. -/
theorem hypertension_misses_later_condition :
    (mixedBundle.entry.any
      (fun e => e.resource.resourceType == "Condition")) = true ∧
    (patientViewHypertensionOutcome (some mixedBundle)).sends = [] := by
  decide

/-- C4 amended: the Hypertension Flag handler decides on the FIRST entry of
    the fetched bundle: if the first entry's resource type is Condition it
    sends exactly one warning card summarizing that condition's display
    text; otherwise — first entry not a Condition, no entries, or an absent
    bundle — it sends zero cards. -/
theorem hypertension_first_entry_card :
    (∀ (b : FetchBody) (e : FetchedEntry), b.entry.head? = some e →
      e.resource.resourceType = "Condition" →
      (patientViewHypertensionOutcome (some b)).sends =
        [{ cards := [hypertensionCard e.resource] }]) ∧
    (∀ (b : FetchBody) (e : FetchedEntry), b.entry.head? = some e →
      e.resource.resourceType ≠ "Condition" →
      (patientViewHypertensionOutcome (some b)).sends = []) ∧
    (∀ b : FetchBody, b.entry = [] →
      (patientViewHypertensionOutcome (some b)).sends = []) ∧
    (patientViewHypertensionOutcome none).sends = [] := by
  refine ⟨?_, ?_, ?_, rfl⟩
  · intro b e hb he
    simp [patientViewHypertensionOutcome, hb, he]
  · intro b e hb he
    simp [patientViewHypertensionOutcome, hb, he]
  · intro b hb
    simp [patientViewHypertensionOutcome, hb]

/-- C4 amended witness: a bundle whose first entry is a Condition yields
    the single warning card, and the empty bundle yields none. -/
theorem hypertension_first_entry_card_witness :
    (patientViewHypertensionOutcome (some conditionBundle)).sends =
      [{ cards :=
          [hypertensionCard
            { resourceType := "Condition",
              code := { text := "Hypertension" } }] }] ∧
    (patientViewHypertensionOutcome (some mixedBundle)).sends = [] ∧
    (patientViewHypertensionOutcome (some emptyBundle)).sends = [] :=
  ⟨hypertension_first_entry_card.1 conditionBundle
      { resource := { resourceType := "Condition",
                      code := { text := "Hypertension" } } } rfl rfl,
    hypertension_first_entry_card.2.1 mixedBundle
      { resource := { resourceType := "Observation",
                      code := { text := "Blood pressure" } } } rfl
      (by decide),
    hypertension_first_entry_card.2.2.1 emptyBundle rfl⟩

/-- C5: the hypertension endpoint does not send exactly one response per
    request.  When the fetched bundle has no Condition first entry the
    continuation sends nothing and the handler only records status 200, so
    no response is ever written; when the fetch fails (the promise resolved
    with undefined) the continuation throws and again nothing is sent. -/
theorem hypertension_sends_no_response_without_condition :
    (hypertensionEndpoint "srv" "pat" none (.success emptyBundle)).sends
      = [] ∧
    (hypertensionEndpoint "srv" "pat" none
      (.success emptyBundle)).statusSet = some 200 ∧
    (hypertensionEndpoint "srv" "pat" none .failure).sends = [] ∧
    (hypertensionEndpoint "srv" "pat" none .failure).continuationThrew
      = true ∧
    (hypertensionEndpoint "srv" "pat" none
      (.success conditionBundle)).sends.length = 1 := by
  decide

/-- C10: both bundle-reading handlers consult only index 0: a fetched
    bundle whose first entry is not a Condition yields zero cards even when
    a later entry is a Condition, and the order-select outcome is unchanged
    when the draft-orders bundle is truncated to its first entry. -/
theorem handlers_read_only_first_entry :
    (∀ (b : FetchBody) (e : FetchedEntry) (rest : List FetchedEntry),
      b.entry = e :: rest →
      e.resource.resourceType ≠ "Condition" →
      (∃ e2 ∈ rest, e2.resource.resourceType = "Condition") →
      (patientViewHypertensionOutcome (some b)).sends = []) ∧
    (∀ (ctx : OrderSelectContext) (e : DraftOrderEntry)
        (rest : List DraftOrderEntry),
      ctx.draftOrders.entry = e :: rest →
      orderSelectOutcome ctx =
        orderSelectOutcome { ctx with draftOrders := { entry := [e] } }) := by
  constructor
  · intro b e rest hb he _
    simp [patientViewHypertensionOutcome, hb, he]
  · intro ctx e rest hb
    simp [orderSelectOutcome, hb]

/-- C10 witness: the mixed bundle (Condition only at index 1) yields zero
    cards, and a two-order context (only the second order selected) has the
    same outcome as its truncation to the first order alone. -/
theorem handlers_read_only_first_entry_witness :
    (patientViewHypertensionOutcome (some mixedBundle)).sends = [] ∧
    orderSelectOutcome
        { draftOrders :=
            { entry := [{ resource := draftOrder11111 },
                        { resource := draftOrderAspirin }] },
          selections := ["MedicationRequest/order-456"] } =
      orderSelectOutcome
        { draftOrders := { entry := [{ resource := draftOrder11111 }] },
          selections := ["MedicationRequest/order-456"] } :=
  ⟨handlers_read_only_first_entry.1 mixedBundle
      { resource := { resourceType := "Observation",
                      code := { text := "Blood pressure" } } }
      [{ resource := { resourceType := "Condition",
                       code := { text := "Hypertension" } } }]
      rfl (by decide) (by decide),
    handlers_read_only_first_entry.2
      { draftOrders :=
          { entry := [{ resource := draftOrder11111 },
                      { resource := draftOrderAspirin }] },
        selections := ["MedicationRequest/order-456"] }
      { resource := draftOrder11111 }
      [{ resource := draftOrderAspirin }] rfl⟩

/-! ## C6: the Clinical Data Fetcher's return policy -/

/-- A success body whose resource type is not Bundle. -/
def opOutcomeBody : FetchBody :=
  { resourceType := "OperationOutcome", entry := [] }

/-- C6 counterexample: on a successful fetch whose response body's resource
    type is not Bundle, the fhir.js fetcher (the one the hypertension
    handler calls) returns that body rather than an empty/absent result. -/
theorem fhirJs_returns_non_bundle_body :
    retrieveHypertensionConditionsFhirJs "srv" "pat" none
        (.success opOutcomeBody) = some opOutcomeBody ∧
    (opOutcomeBody.resourceType == "Bundle") = false ∧
    (retrieveHypertensionConditionsFhirJs "srv" "pat" none
        (.success opOutcomeBody)).isSome = true := by
  decide

/-- C6 amended: the axios fetcher returns a success body exactly when its
    resource type is Bundle and returns an absent result otherwise, while
    the fhir.js fetcher (the one actually invoked) returns every success
    body unconditionally; both return an absent result on network
    error/timeout, never raising to the caller. -/
theorem clinicalDataFetcher_policy :
    (∀ (s p : String) (a : Option FhirAuthorization) (b : FetchBody),
      retrieveHypertensionConditionsAxios s p a (.success b) = some b ↔
        b.resourceType = "Bundle") ∧
    (∀ (s p : String) (a : Option FhirAuthorization) (b : FetchBody),
      b.resourceType ≠ "Bundle" →
        retrieveHypertensionConditionsAxios s p a (.success b) = none) ∧
    (∀ (s p : String) (a : Option FhirAuthorization),
      retrieveHypertensionConditionsAxios s p a .failure = none) ∧
    (∀ (s p : String) (a : Option FhirAuthorization) (b : FetchBody),
      retrieveHypertensionConditionsFhirJs s p a (.success b) = some b) ∧
    (∀ (s p : String) (a : Option FhirAuthorization),
      retrieveHypertensionConditionsFhirJs s p a .failure = none) := by
  refine ⟨?_, ?_, fun s p a => rfl, fun s p a b => rfl, fun s p a => rfl⟩
  · intro s p a b
    constructor
    · intro h
      by_contra hb
      simp [retrieveHypertensionConditionsAxios, hb] at h
    · intro hb
      simp [retrieveHypertensionConditionsAxios, hb]
  · intro s p a b hb
    simp [retrieveHypertensionConditionsAxios, hb]

/-- C6 amended witness: at concrete inputs, the axios fetcher drops a
    non-Bundle success body and a failed fetch, the fhir.js fetcher keeps
    the success body, and both swallow failure. -/
theorem clinicalDataFetcher_policy_witness :
    retrieveHypertensionConditionsAxios "srv" "pat" none
        (.success opOutcomeBody) = none ∧
    retrieveHypertensionConditionsAxios "srv" "pat" none .failure = none ∧
    retrieveHypertensionConditionsFhirJs "srv" "pat" none
        (.success conditionBundle) = some conditionBundle ∧
    retrieveHypertensionConditionsFhirJs "srv" "pat" none .failure = none :=
  ⟨clinicalDataFetcher_policy.2.1 "srv" "pat" none opOutcomeBody (by decide),
    clinicalDataFetcher_policy.2.2.1 "srv" "pat" none,
    clinicalDataFetcher_policy.2.2.2.1 "srv" "pat" none conditionBundle,
    clinicalDataFetcher_policy.2.2.2.2 "srv" "pat" none⟩

/-! ## C7: non-auth failures and the wire contract -/

/-- The body an outcome delivered, if any. -/
def outcomeSentBody : Outcome → Option CardsResponse
  | .sent b => some b
  | .noSend _ => none
  | .threw => none

/-- C7: an order-select request whose draft order is valid but not
    referenced in the selection set does not receive the empty-but-valid
    200 response the spec requires: the handler only records status 200 and
    never sends any body, so the caller gets no response at all. -/
theorem orderSelect_unselected_sends_no_response :
    orderSelectOutcome unselectedCtx = .noSend 200 ∧
    outcomeSentBody (orderSelectOutcome unselectedCtx) = none := by
  decide

/-! ## C8: the Patient Greeting card -/

/-- The exact response the greeting handler sends for a patient whose first
    name entry is given "Tom" / family "Hanks" with birth date
    1980-01-01. -/
def tomHanksGreeting : CardsResponse :=
  { cards :=
      [ { summary := "Now seeing: Tom Hanks",
          detail := some "Patient birthdate: 1980-01-01",
          indicator := "info",
          source :=
            { label := "CDS Service Tutorial",
              url := "https://github.com/cerner/cds-services-tutorial/wiki/Patient-View-Service" },
          suggestions := none,
          links :=
            some
              [ { label := "Learn more about CDS Hooks",
                  url := "http://cds-hooks.org",
                  type := "absolute" },
                { label := "Launch SMART App!",
                  url := "https://engineering.cerner.com/smart-on-fhir-tutorial/example-smart-app/launch.html",
                  type := "smart" } ] } ] }

/-- A request body prefetching the Tom Hanks patient resource. -/
def tomHanksBody : PatientViewBody :=
  { prefetch :=
      { requestedPatient :=
          { name := [{ given := ["Tom"], family := ["Hanks"] }],
            birthDate := some "1980-01-01" } } }

/-- C8: every patient-view request whose prefetched patient has first given
    name "Tom", family name "Hanks" and birth date "1980-01-01" receives
    exactly one card whose summary is "Now seeing: Tom Hanks", whose detail
    contains "1980-01-01", and which carries two links — an informational
    absolute link and a SMART launch link. -/
theorem patientView_greeting (body : PatientViewBody) (n : HumanName)
    (hn : body.prefetch.requestedPatient.name.head? = some n)
    (hg : n.given.head? = some "Tom")
    (hf : n.family.head? = some "Hanks")
    (hb : body.prefetch.requestedPatient.birthDate = some "1980-01-01") :
    patientViewExampleOutcome body = .sent tomHanksGreeting ∧
    tomHanksGreeting.cards.length = 1 ∧
    (tomHanksGreeting.cards.map Card.summary) = ["Now seeing: Tom Hanks"] ∧
    (∃ pre post,
      (tomHanksGreeting.cards.map Card.detail) =
        [some (pre ++ "1980-01-01" ++ post)]) ∧
    (tomHanksGreeting.cards.map
      (fun c => c.links.map (fun ls => ls.map CardLink.type))) =
        [some ["absolute", "smart"]] := by
  refine ⟨?_, rfl, rfl, ⟨"Patient birthdate: ", "", by decide⟩, rfl⟩
  simp [patientViewExampleOutcome, hn, hg, hf, hb, jsStr, tomHanksGreeting]

/-- C8 witness: the greeting theorem applied to the concrete Tom Hanks
    request body. -/
theorem patientView_greeting_witness :
    patientViewExampleOutcome tomHanksBody = .sent tomHanksGreeting :=
  (patientView_greeting tomHanksBody { given := ["Tom"], family := ["Hanks"] }
      rfl rfl rfl rfl).1

/-! ## C9: every emitted card has a populated source -/

/-- A card's `source` is populated: label and url are nonempty. -/
def sourcePopulated (c : Card) : Bool :=
  (c.source.label != "") && (c.source.url != "")

/-- Every card of every response `createMedicationResponseCard` builds has
    a populated source. -/
theorem createMedicationResponseCard_source (o : MedOrder)
    (r : CardsResponse) (h : createMedicationResponseCard o = some r) :
    r.cards.all sourcePopulated = true := by
  unfold createMedicationResponseCard at h
  split at h
  · exact absurd h (by simp)
  · split at h
    · exact absurd h (by simp)
    · split at h <;> · cases h; rfl

/-- C9: every advisory card sent by any of the three POST handlers has its
    source field populated (nonempty label and url).  Every sent body is a
    `CardsResponse`, i.e. an object with a `cards` array, by construction
    of the embedding. -/
theorem all_sent_cards_source_populated :
    (∀ (body : PatientViewBody) (r : CardsResponse),
      patientViewExampleOutcome body = .sent r →
      r.cards.all sourcePopulated = true) ∧
    (∀ (fetched : Option FetchBody) (r : CardsResponse),
      r ∈ (patientViewHypertensionOutcome fetched).sends →
      r.cards.all sourcePopulated = true) ∧
    (∀ (ctx : OrderSelectContext) (r : CardsResponse),
      orderSelectOutcome ctx = .sent r →
      r.cards.all sourcePopulated = true) := by
  refine ⟨?_, ?_, ?_⟩
  · intro body r h
    simp only [patientViewExampleOutcome] at h
    split at h
    · exact absurd h (by simp)
    · cases h; rfl
  · intro fetched r h
    unfold patientViewHypertensionOutcome at h
    split at h
    · simp at h
    · split at h
      · split at h
        · simp at h
          cases h; rfl
        · simp at h
      · simp at h
  · intro ctx r h
    simp only [orderSelectOutcome] at h
    split at h
    · exact absurd h (by simp)
    · split at h
      · split at h
        · cases h
          exact createMedicationResponseCard_source _ _ (by assumption)
        · exact absurd h (by simp)
      · exact absurd h (by simp)

/-- The response the hypertension handler sends for `conditionBundle`. -/
def hypertensionConditionResponse : CardsResponse :=
  { cards :=
      [hypertensionCard
        { resourceType := "Condition", code := { text := "Hypertension" } }] }

/-- C9 witness: the theorem applied to the concrete greeting request and to
    the Condition bundle's response. -/
theorem all_sent_cards_source_populated_witness :
    tomHanksGreeting.cards.all sourcePopulated = true ∧
    hypertensionConditionResponse.cards.all sourcePopulated = true :=
  ⟨all_sent_cards_source_populated.1 tomHanksBody tomHanksGreeting
      (by decide),
    all_sent_cards_source_populated.2.1 (some conditionBundle)
      hypertensionConditionResponse (by decide)⟩

end CdsServices
